import Mathlib

/-
Shallow embedding of the Crydsch/camera repository: `src/camera.h` together
with the default math backend `src/camera_math_default.h`.

C `float` values are modelled as real numbers; `sinf`/`cosf`/`asinf`/`sqrtf`
are the corresponding real functions, `atan2f` is spelled out with its usual
piecewise definition over `Real.arctan`, and `powf(x, -0.5f)` is modelled as
`(Real.sqrt x)⁻¹`.  Bit flags are natural numbers combined with `&&&`/`|||`
exactly as the C code combines them with `&`/`|`.
-/

/- Vector and quaternion representation (struct vec3 / struct quat). -/

@[ext]
structure CameraVec3 where
  x : ℝ
  y : ℝ
  z : ℝ

@[ext]
structure CameraQuat where
  x : ℝ
  y : ℝ
  z : ℝ
  w : ℝ

/- Math backend: camera_math_default.h -/

def cm_init_vec3 (x y z : ℝ) : CameraVec3 := ⟨x, y, z⟩

def cm_init_quat (x y z w : ℝ) : CameraQuat := ⟨x, y, z, w⟩

def cm_invert (a : CameraQuat) : CameraQuat := ⟨-a.x, -a.y, -a.z, a.w⟩

def cm_mulQuat (a b : CameraQuat) : CameraQuat :=
  ⟨a.w * b.x + a.x * b.w + a.y * b.z - a.z * b.y,
   a.w * b.y - a.x * b.z + a.y * b.w + a.z * b.x,
   a.w * b.z + a.x * b.y - a.y * b.x + a.z * b.w,
   a.w * b.w - a.x * b.x - a.y * b.y - a.z * b.z⟩

def cm_mul (v : CameraVec3) (q : CameraQuat) : CameraVec3 :=
  let tmp0 := cm_invert q
  let qv := cm_init_quat v.x v.y v.z 0
  let tmp1 := cm_mulQuat tmp0 qv
  let result := cm_mulQuat tmp1 q
  cm_init_vec3 result.x result.y result.z

def cm_add (a b : CameraVec3) : CameraVec3 := ⟨a.x + b.x, a.y + b.y, a.z + b.z⟩

def cm_scale (a : CameraVec3) (b : ℝ) : CameraVec3 := ⟨a.x * b, a.y * b, a.z * b⟩

def cm_cross (a b : CameraVec3) : CameraVec3 :=
  ⟨a.y * b.z - a.z * b.y, a.z * b.x - a.x * b.z, a.x * b.y - a.y * b.x⟩

noncomputable def cm_min (a b : ℝ) : ℝ := if a < b then a else b

noncomputable def cm_max (a b : ℝ) : ℝ := if a > b then a else b

noncomputable def cm_sqrt (a : ℝ) : ℝ := Real.sqrt a

/-- C `atan2f(y, x)`, written out with its standard piecewise definition. -/
noncomputable def atan2f (y x : ℝ) : ℝ :=
  if 0 < x then Real.arctan (y / x)
  else if x < 0 then
    (if 0 ≤ y then Real.arctan (y / x) + Real.pi else Real.arctan (y / x) - Real.pi)
  else if 0 < y then Real.pi / 2
  else if y < 0 then -(Real.pi / 2)
  else 0

noncomputable def cm_toEuler (a : CameraQuat) : CameraVec3 :=
  let xsq := a.x * a.x
  let ysq := a.y * a.y
  let zsq := a.z * a.z
  cm_init_vec3
    (atan2f (2 * (a.x * a.w - a.y * a.z)) (1 - 2 * (xsq + zsq)))
    (atan2f (2 * (a.y * a.w + a.x * a.z)) (1 - 2 * (ysq + zsq)))
    (Real.arcsin (2 * (a.x * a.y + a.z * a.w)))

noncomputable def cm_fromAxisAngle (axis : CameraVec3) (angle : ℝ) : CameraQuat :=
  let ha := angle * 0.5
  let sa := Real.sin ha
  cm_init_quat (axis.x * sa) (axis.y * sa) (axis.z * sa) (Real.cos ha)

noncomputable def cm_normalizeQuat (a : CameraQuat) : CameraQuat :=
  let norm := a.x * a.x + a.y * a.y + a.z * a.z + a.w * a.w
  if 0 < norm then
    let invNorm := (Real.sqrt norm)⁻¹
    ⟨a.x * invNorm, a.y * invNorm, a.z * invNorm, a.w * invNorm⟩
  else
    cm_init_quat 0 0 0 1

noncomputable def cm_normalizeVec3 (a : CameraVec3) : CameraVec3 :=
  let invLen := 1 / Real.sqrt (a.x * a.x + a.y * a.y + a.z * a.z)
  cm_scale a invLen

def cm_negate (a : CameraVec3) : CameraVec3 := ⟨-a.x, -a.y, -a.z⟩

def cm_matrixFromQuat (rotation : CameraQuat) : List ℝ :=
  let qx := rotation.x
  let qy := rotation.y
  let qz := rotation.z
  let qw := rotation.w
  let x2 := qx + qx
  let y2 := qy + qy
  let z2 := qz + qz
  let x2x := x2 * qx
  let x2y := x2 * qy
  let x2z := x2 * qz
  let x2w := x2 * qw
  let y2y := y2 * qy
  let y2z := y2 * qz
  let y2w := y2 * qw
  let z2z := z2 * qz
  let z2w := z2 * qw
  [1 - (y2y + z2z), x2y - z2w, x2z + y2w, 0,
   x2y + z2w, 1 - (x2x + z2z), y2z - x2w, 0,
   x2z - y2w, y2z + x2w, 1 - (x2x + y2y), 0,
   0, 0, 0, 1]

/- World and mode defines: camera.h -/

def CAMERA_WORLD_FORWARD : CameraVec3 := cm_init_vec3 0 0 1

def CAMERA_WORLD_UP : CameraVec3 := cm_init_vec3 0 1 0

def CAMERA_WORLD_RIGHT : CameraVec3 := cm_init_vec3 1 0 0

def CAMERA_MODE_DISABLE_ROLL : Nat := 0x00000001

def CAMERA_MODE_MOVE_IN_WORLDPLANE : Nat := 0x00000002

def CAMERA_MODE_CLAMP_PITCH_ANGLE : Nat := 0x00000004

def CAMERA_MODE_CLAMP_YAW_ANGLE : Nat := 0x00000008

def CAMERA_MODE_CLAMP_ROLL_ANGLE : Nat := 0x00000010

def CAMERA_MODE_FREE : Nat := 0

/- Camera struct: camera.h -/

structure Camera where
  target_position : CameraVec3
  target_distance : ℝ
  orientation : CameraQuat
  mode : Nat
  movement_accumulator : CameraVec3
  rotation_accumulator : CameraVec3
  minPitch : ℝ
  maxPitch : ℝ
  minYaw : ℝ
  maxYaw : ℝ
  minRoll : ℝ
  maxRoll : ℝ

/-- camera_init (camera.h, lines 213-233).  Note the orientation is
initialized with `cm_init_quat(0.0f, 0.0f, 0.0, 0.0f)`, the zero
quaternion. -/
def camera_init : Camera :=
  { target_position := cm_init_vec3 0 0 0
    target_distance := 0
    orientation := cm_init_quat 0 0 0 0
    mode := CAMERA_MODE_FREE
    movement_accumulator := cm_init_vec3 0 0 0
    rotation_accumulator := cm_init_vec3 0 0 0
    minPitch := 0
    maxPitch := 0
    minYaw := 0
    maxYaw := 0
    minRoll := 0
    maxRoll := 0 }

def camera_forward (cam : Camera) : CameraVec3 :=
  cm_mul CAMERA_WORLD_FORWARD (cm_invert cam.orientation)

def camera_up (cam : Camera) : CameraVec3 :=
  cm_mul CAMERA_WORLD_UP (cm_invert cam.orientation)

def camera_right (cam : Camera) : CameraVec3 :=
  cm_mul CAMERA_WORLD_RIGHT (cm_invert cam.orientation)

def camera_eye (cam : Camera) : CameraVec3 :=
  cm_add cam.target_position (cm_scale (camera_forward cam) (-cam.target_distance))

def camera_move (cam : Camera) (offset : CameraVec3) : Camera :=
  { cam with movement_accumulator := cm_add cam.movement_accumulator offset }

def camera_rotate (cam : Camera) (angles : CameraVec3) : Camera :=
  { cam with rotation_accumulator := cm_add cam.rotation_accumulator angles }

/-- The "Clamp angles" block of camera_view_matrix (camera.h, lines 329-350).
The Euler angles of the current orientation are computed once; for each
active clamp axis the accumulator component is first raised to
`min* - angle` via cm_max, then lowered to `max* - angle` via cm_min. -/
noncomputable def clampRotation (cam : Camera) : Camera :=
  if cam.mode &&& (CAMERA_MODE_CLAMP_PITCH_ANGLE ||| CAMERA_MODE_CLAMP_YAW_ANGLE |||
      CAMERA_MODE_CLAMP_ROLL_ANGLE) ≠ 0 then
    let angles := cm_toEuler cam.orientation
    let rx :=
      if cam.mode &&& CAMERA_MODE_CLAMP_PITCH_ANGLE ≠ 0 then
        cm_min (cam.maxPitch - angles.x)
          (cm_max (cam.minPitch - angles.x) cam.rotation_accumulator.x)
      else cam.rotation_accumulator.x
    let ry :=
      if cam.mode &&& CAMERA_MODE_CLAMP_YAW_ANGLE ≠ 0 then
        cm_min (cam.maxYaw - angles.y)
          (cm_max (cam.minYaw - angles.y) cam.rotation_accumulator.y)
      else cam.rotation_accumulator.y
    let rz :=
      if cam.mode &&& CAMERA_MODE_CLAMP_ROLL_ANGLE ≠ 0 then
        cm_min (cam.maxRoll - angles.z)
          (cm_max (cam.minRoll - angles.z) cam.rotation_accumulator.z)
      else cam.rotation_accumulator.z
    { cam with rotation_accumulator := cm_init_vec3 rx ry rz }
  else cam

/-- The "Update orientation" block of camera_view_matrix (camera.h, lines
353-378): compose the axis-angle deltas into the orientation with the
mode-dependent order, re-normalize, and reset the rotation accumulator. -/
noncomputable def applyRotation (cam : Camera) : Camera :=
  let pitch := cm_fromAxisAngle CAMERA_WORLD_RIGHT cam.rotation_accumulator.x
  let yaw := cm_fromAxisAngle CAMERA_WORLD_UP cam.rotation_accumulator.y
  let orientation1 :=
    if cam.mode &&& CAMERA_MODE_DISABLE_ROLL ≠ 0 then
      cm_mulQuat yaw (cm_mulQuat cam.orientation pitch)
    else
      let roll := cm_fromAxisAngle CAMERA_WORLD_FORWARD cam.rotation_accumulator.z
      cm_mulQuat (cm_mulQuat (cm_mulQuat cam.orientation pitch) yaw) roll
  { cam with
    orientation := cm_normalizeQuat orientation1
    rotation_accumulator := cm_init_vec3 0 0 0 }

/-- The "Update target_position" block of camera_view_matrix (camera.h, lines
381-431): derive the basis, optionally project it into the world plane,
apply the movement accumulator, and reset it. -/
noncomputable def applyMovement (cam : Camera) : Camera :=
  let forward := camera_forward cam
  let up := camera_up cam
  let right := camera_right cam
  let fur : CameraVec3 × CameraVec3 × CameraVec3 :=
    if cam.mode &&& CAMERA_MODE_MOVE_IN_WORLDPLANE ≠ 0 then
      let epsilon : ℝ := 0.0001
      let fr : CameraVec3 × CameraVec3 :=
        if forward.y > 1 - epsilon then (cm_negate up, right)
        else if forward.y < -1 + epsilon then (up, right)
        else if right.y > 1 - epsilon then (forward, up)
        else if right.y < -1 + epsilon then (forward, cm_negate up)
        else (forward, right)
      let forward2 := cm_normalizeVec3 (cm_init_vec3 fr.1.x 0 fr.1.z)
      let right2 := cm_normalizeVec3 (cm_init_vec3 fr.2.x 0 fr.2.z)
      (forward2, CAMERA_WORLD_UP, right2)
    else (forward, up, right)
  let forwardS := cm_scale fur.1 cam.movement_accumulator.x
  let upS := cm_scale fur.2.1 cam.movement_accumulator.y
  let rightS := cm_scale fur.2.2 cam.movement_accumulator.z
  let tp := cm_add (cm_add (cm_add cam.target_position forwardS) upS) rightS
  { cam with
    target_position := tp
    movement_accumulator := cm_init_vec3 0 0 0 }

/-- camera_view_matrix (camera.h, lines 325-448), as a state transition
returning the updated camera and the 16-element view matrix. -/
noncomputable def camera_view_matrix (cam0 : Camera) : Camera × List ℝ :=
  let cam1 := clampRotation cam0
  let cam2 := applyRotation cam1
  let cam3 := applyMovement cam2
  let m := cm_matrixFromQuat cam3.orientation
  let translation := cm_mul (cm_negate (camera_eye cam3)) cam3.orientation
  let m := ((m.set 12 translation.x).set 13 translation.y).set 14 translation.z
  (cam3, m)

/- Auxiliary notions used by the theorems. -/

/-- Squared norm of a quaternion (the inline `norm` of cm_normalizeQuat). -/
def quatNormSq (a : CameraQuat) : ℝ :=
  a.x * a.x + a.y * a.y + a.z * a.z + a.w * a.w

/-- Standard clamp of `v` into the interval `[lo, hi]`, as the spec words it. -/
noncomputable def clampedTo (v lo hi : ℝ) : ℝ := max lo (min v hi)

/-- A queued command: either a camera_move or a camera_rotate call. -/
inductive CameraCmd where
  | move (v : CameraVec3)
  | rotate (v : CameraVec3)

/-- Apply a sequence of camera_move/camera_rotate calls in order. -/
def applyCmds (cam : Camera) : List CameraCmd → Camera
  | [] => cam
  | CameraCmd.move v :: rest => applyCmds (camera_move cam v) rest
  | CameraCmd.rotate v :: rest => applyCmds (camera_rotate cam v) rest

/- Projection lemmas for the pipeline stages. -/

@[simp] theorem clampRotation_orientation (cam : Camera) :
    (clampRotation cam).orientation = cam.orientation := by
  unfold clampRotation; split <;> rfl

@[simp] theorem clampRotation_mode (cam : Camera) :
    (clampRotation cam).mode = cam.mode := by
  unfold clampRotation; split <;> rfl

@[simp] theorem clampRotation_target_position (cam : Camera) :
    (clampRotation cam).target_position = cam.target_position := by
  unfold clampRotation; split <;> rfl

@[simp] theorem clampRotation_target_distance (cam : Camera) :
    (clampRotation cam).target_distance = cam.target_distance := by
  unfold clampRotation; split <;> rfl

@[simp] theorem clampRotation_movement_accumulator (cam : Camera) :
    (clampRotation cam).movement_accumulator = cam.movement_accumulator := by
  unfold clampRotation; split <;> rfl

@[simp] theorem clampRotation_minPitch (cam : Camera) :
    (clampRotation cam).minPitch = cam.minPitch := by
  unfold clampRotation; split <;> rfl

@[simp] theorem clampRotation_maxPitch (cam : Camera) :
    (clampRotation cam).maxPitch = cam.maxPitch := by
  unfold clampRotation; split <;> rfl

@[simp] theorem clampRotation_minYaw (cam : Camera) :
    (clampRotation cam).minYaw = cam.minYaw := by
  unfold clampRotation; split <;> rfl

@[simp] theorem clampRotation_maxYaw (cam : Camera) :
    (clampRotation cam).maxYaw = cam.maxYaw := by
  unfold clampRotation; split <;> rfl

@[simp] theorem clampRotation_minRoll (cam : Camera) :
    (clampRotation cam).minRoll = cam.minRoll := by
  unfold clampRotation; split <;> rfl

@[simp] theorem clampRotation_maxRoll (cam : Camera) :
    (clampRotation cam).maxRoll = cam.maxRoll := by
  unfold clampRotation; split <;> rfl

@[simp] theorem applyRotation_mode (cam : Camera) :
    (applyRotation cam).mode = cam.mode := rfl

@[simp] theorem applyRotation_target_position (cam : Camera) :
    (applyRotation cam).target_position = cam.target_position := rfl

@[simp] theorem applyRotation_target_distance (cam : Camera) :
    (applyRotation cam).target_distance = cam.target_distance := rfl

@[simp] theorem applyRotation_movement_accumulator (cam : Camera) :
    (applyRotation cam).movement_accumulator = cam.movement_accumulator := rfl

@[simp] theorem applyRotation_rotation_accumulator (cam : Camera) :
    (applyRotation cam).rotation_accumulator = cm_init_vec3 0 0 0 := rfl

@[simp] theorem applyRotation_minPitch (cam : Camera) :
    (applyRotation cam).minPitch = cam.minPitch := rfl

@[simp] theorem applyRotation_maxPitch (cam : Camera) :
    (applyRotation cam).maxPitch = cam.maxPitch := rfl

@[simp] theorem applyRotation_minYaw (cam : Camera) :
    (applyRotation cam).minYaw = cam.minYaw := rfl

@[simp] theorem applyRotation_maxYaw (cam : Camera) :
    (applyRotation cam).maxYaw = cam.maxYaw := rfl

@[simp] theorem applyRotation_minRoll (cam : Camera) :
    (applyRotation cam).minRoll = cam.minRoll := rfl

@[simp] theorem applyRotation_maxRoll (cam : Camera) :
    (applyRotation cam).maxRoll = cam.maxRoll := rfl

@[simp] theorem applyMovement_orientation (cam : Camera) :
    (applyMovement cam).orientation = cam.orientation := rfl

@[simp] theorem applyMovement_mode (cam : Camera) :
    (applyMovement cam).mode = cam.mode := rfl

@[simp] theorem applyMovement_target_distance (cam : Camera) :
    (applyMovement cam).target_distance = cam.target_distance := rfl

@[simp] theorem applyMovement_rotation_accumulator (cam : Camera) :
    (applyMovement cam).rotation_accumulator = cam.rotation_accumulator := rfl

@[simp] theorem applyMovement_movement_accumulator (cam : Camera) :
    (applyMovement cam).movement_accumulator = cm_init_vec3 0 0 0 := rfl

@[simp] theorem applyMovement_minPitch (cam : Camera) :
    (applyMovement cam).minPitch = cam.minPitch := rfl

@[simp] theorem applyMovement_maxPitch (cam : Camera) :
    (applyMovement cam).maxPitch = cam.maxPitch := rfl

@[simp] theorem applyMovement_minYaw (cam : Camera) :
    (applyMovement cam).minYaw = cam.minYaw := rfl

@[simp] theorem applyMovement_maxYaw (cam : Camera) :
    (applyMovement cam).maxYaw = cam.maxYaw := rfl

@[simp] theorem applyMovement_minRoll (cam : Camera) :
    (applyMovement cam).minRoll = cam.minRoll := rfl

@[simp] theorem applyMovement_maxRoll (cam : Camera) :
    (applyMovement cam).maxRoll = cam.maxRoll := rfl

theorem camera_view_matrix_fst (cam : Camera) :
    (camera_view_matrix cam).1 = applyMovement (applyRotation (clampRotation cam)) := rfl

/- Quaternion algebra lemmas. -/

@[simp] theorem cm_mulQuat_one (a : CameraQuat) :
    cm_mulQuat a (cm_init_quat 0 0 0 1) = a := by
  ext <;> simp [cm_mulQuat, cm_init_quat]

@[simp] theorem cm_one_mulQuat (a : CameraQuat) :
    cm_mulQuat (cm_init_quat 0 0 0 1) a = a := by
  ext <;> simp [cm_mulQuat, cm_init_quat]

theorem cm_mulQuat_assoc (a b c : CameraQuat) :
    cm_mulQuat (cm_mulQuat a b) c = cm_mulQuat a (cm_mulQuat b c) := by
  ext <;> simp [cm_mulQuat] <;> ring

@[simp] theorem cm_zero_mulQuat (b : CameraQuat) :
    cm_mulQuat (cm_init_quat 0 0 0 0) b = cm_init_quat 0 0 0 0 := by
  ext <;> simp [cm_mulQuat, cm_init_quat]

@[simp] theorem cm_mulQuat_zero (a : CameraQuat) :
    cm_mulQuat a (cm_init_quat 0 0 0 0) = cm_init_quat 0 0 0 0 := by
  ext <;> simp [cm_mulQuat, cm_init_quat]

theorem quatNormSq_mulQuat (a b : CameraQuat) :
    quatNormSq (cm_mulQuat a b) = quatNormSq a * quatNormSq b := by
  simp only [quatNormSq, cm_mulQuat]; ring

theorem quatNormSq_nonneg (a : CameraQuat) : 0 ≤ quatNormSq a := by
  unfold quatNormSq
  nlinarith [mul_self_nonneg a.x, mul_self_nonneg a.y, mul_self_nonneg a.z, mul_self_nonneg a.w]

theorem cm_normalizeQuat_def (a : CameraQuat) :
    cm_normalizeQuat a =
      if 0 < quatNormSq a then
        ⟨a.x * (Real.sqrt (quatNormSq a))⁻¹, a.y * (Real.sqrt (quatNormSq a))⁻¹,
         a.z * (Real.sqrt (quatNormSq a))⁻¹, a.w * (Real.sqrt (quatNormSq a))⁻¹⟩
      else cm_init_quat 0 0 0 1 := rfl

theorem quatNormSq_normalize (a : CameraQuat) :
    quatNormSq (cm_normalizeQuat a) = 1 := by
  rw [cm_normalizeQuat_def]
  by_cases h : 0 < quatNormSq a
  · simp only [if_pos h]
    have hs : Real.sqrt (quatNormSq a) * Real.sqrt (quatNormSq a) = quatNormSq a :=
      Real.mul_self_sqrt (le_of_lt h)
    have hn : Real.sqrt (quatNormSq a) ≠ 0 :=
      ne_of_gt (Real.sqrt_pos.mpr h)
    calc quatNormSq ⟨a.x * (Real.sqrt (quatNormSq a))⁻¹, a.y * (Real.sqrt (quatNormSq a))⁻¹,
          a.z * (Real.sqrt (quatNormSq a))⁻¹, a.w * (Real.sqrt (quatNormSq a))⁻¹⟩
        = quatNormSq a * ((Real.sqrt (quatNormSq a))⁻¹ * (Real.sqrt (quatNormSq a))⁻¹) := by
          unfold quatNormSq; ring
      _ = (Real.sqrt (quatNormSq a) * Real.sqrt (quatNormSq a)) *
            ((Real.sqrt (quatNormSq a))⁻¹ * (Real.sqrt (quatNormSq a))⁻¹) := by rw [hs]
      _ = (Real.sqrt (quatNormSq a) * (Real.sqrt (quatNormSq a))⁻¹) *
            (Real.sqrt (quatNormSq a) * (Real.sqrt (quatNormSq a))⁻¹) := by ring
      _ = 1 := by rw [mul_inv_cancel₀ hn]; ring
  · simp only [if_neg h]
    unfold quatNormSq cm_init_quat; norm_num

theorem cm_normalizeQuat_of_normSq_one (a : CameraQuat) (h : quatNormSq a = 1) :
    cm_normalizeQuat a = a := by
  rw [cm_normalizeQuat_def]
  rw [if_pos (by rw [h]; norm_num)]
  ext <;> simp [h]

@[simp] theorem cm_fromAxisAngle_zero (axis : CameraVec3) :
    cm_fromAxisAngle axis 0 = cm_init_quat 0 0 0 1 := by
  ext <;> simp [cm_fromAxisAngle, cm_init_quat]

theorem quatNormSq_fromAxisAngle_up (θ : ℝ) :
    quatNormSq (cm_fromAxisAngle CAMERA_WORLD_UP θ) = 1 := by
  simp only [quatNormSq, cm_fromAxisAngle, CAMERA_WORLD_UP, cm_init_vec3, cm_init_quat]
  have h := Real.sin_sq_add_cos_sq (θ * 0.5)
  nlinarith [h]

theorem quatNormSq_fromAxisAngle_right (θ : ℝ) :
    quatNormSq (cm_fromAxisAngle CAMERA_WORLD_RIGHT θ) = 1 := by
  simp only [quatNormSq, cm_fromAxisAngle, CAMERA_WORLD_RIGHT, cm_init_vec3, cm_init_quat]
  have h := Real.sin_sq_add_cos_sq (θ * 0.5)
  nlinarith [h]

/- Lemmas about sequences of accumulation commands. -/

theorem applyCmds_orientation (cmds : List CameraCmd) :
    ∀ cam : Camera, (applyCmds cam cmds).orientation = cam.orientation := by
  induction cmds with
  | nil => intro cam; rfl
  | cons c rest ih =>
    intro cam
    cases c with
    | move v => simpa [applyCmds, camera_move] using ih (camera_move cam v)
    | rotate v => simpa [applyCmds, camera_rotate] using ih (camera_rotate cam v)

theorem applyCmds_target_position (cmds : List CameraCmd) :
    ∀ cam : Camera, (applyCmds cam cmds).target_position = cam.target_position := by
  induction cmds with
  | nil => intro cam; rfl
  | cons c rest ih =>
    intro cam
    cases c with
    | move v => simpa [applyCmds, camera_move] using ih (camera_move cam v)
    | rotate v => simpa [applyCmds, camera_rotate] using ih (camera_rotate cam v)

theorem applyCmds_target_distance (cmds : List CameraCmd) :
    ∀ cam : Camera, (applyCmds cam cmds).target_distance = cam.target_distance := by
  induction cmds with
  | nil => intro cam; rfl
  | cons c rest ih =>
    intro cam
    cases c with
    | move v => simpa [applyCmds, camera_move] using ih (camera_move cam v)
    | rotate v => simpa [applyCmds, camera_rotate] using ih (camera_rotate cam v)

theorem applyRotation_orientation_eq (cam : Camera) :
    (applyRotation cam).orientation =
      cm_normalizeQuat
        (if cam.mode &&& CAMERA_MODE_DISABLE_ROLL ≠ 0 then
          cm_mulQuat (cm_fromAxisAngle CAMERA_WORLD_UP cam.rotation_accumulator.y)
            (cm_mulQuat cam.orientation
              (cm_fromAxisAngle CAMERA_WORLD_RIGHT cam.rotation_accumulator.x))
        else
          cm_mulQuat (cm_mulQuat (cm_mulQuat cam.orientation
            (cm_fromAxisAngle CAMERA_WORLD_RIGHT cam.rotation_accumulator.x))
            (cm_fromAxisAngle CAMERA_WORLD_UP cam.rotation_accumulator.y))
            (cm_fromAxisAngle CAMERA_WORLD_FORWARD cam.rotation_accumulator.z)) := rfl

/-- Claim C1 (evidence): camera_init returns zero target position, distance,
accumulators, clamp bounds and FREE mode as claimed, but its orientation is
the ZERO quaternion (0,0,0,0), not the identity quaternion (0,0,0,1). -/
theorem c1_camera_init_zero_orientation :
    camera_init.orientation = cm_init_quat 0 0 0 0 ∧
    camera_init.orientation ≠ cm_init_quat 0 0 0 1 ∧
    camera_init.target_position = cm_init_vec3 0 0 0 ∧
    camera_init.target_distance = 0 ∧
    camera_init.movement_accumulator = cm_init_vec3 0 0 0 ∧
    camera_init.rotation_accumulator = cm_init_vec3 0 0 0 ∧
    camera_init.mode = CAMERA_MODE_FREE ∧
    camera_init.minPitch = 0 ∧ camera_init.maxPitch = 0 ∧
    camera_init.minYaw = 0 ∧ camera_init.maxYaw = 0 ∧
    camera_init.minRoll = 0 ∧ camera_init.maxRoll = 0 := by
  refine ⟨rfl, ?_, rfl, rfl, rfl, rfl, rfl, rfl, rfl, rfl, rfl, rfl, rfl⟩
  intro h
  have hw := congrArg CameraQuat.w h
  simp only [camera_init, cm_init_quat] at hw
  norm_num at hw

/-- Claim C2: in camera_view_matrix, with the pitch/yaw/roll delta quaternions
built by axis-angle over the world right/up/forward axes from the (possibly
clamped) rotation accumulator, the new orientation is
yaw ⊗ (orientation ⊗ pitch) when DISABLE_ROLL is set, and
orientation ⊗ pitch ⊗ yaw ⊗ roll otherwise, before re-normalization (i.e.
the stored orientation is the re-normalization of exactly that product). -/
theorem c2_orientation_composition (cam : Camera) :
    (cam.mode &&& CAMERA_MODE_DISABLE_ROLL ≠ 0 →
      ((camera_view_matrix cam).1).orientation =
        cm_normalizeQuat (cm_mulQuat
          (cm_fromAxisAngle CAMERA_WORLD_UP (clampRotation cam).rotation_accumulator.y)
          (cm_mulQuat cam.orientation
            (cm_fromAxisAngle CAMERA_WORLD_RIGHT (clampRotation cam).rotation_accumulator.x)))) ∧
    (cam.mode &&& CAMERA_MODE_DISABLE_ROLL = 0 →
      ((camera_view_matrix cam).1).orientation =
        cm_normalizeQuat (cm_mulQuat (cm_mulQuat (cm_mulQuat cam.orientation
          (cm_fromAxisAngle CAMERA_WORLD_RIGHT (clampRotation cam).rotation_accumulator.x))
          (cm_fromAxisAngle CAMERA_WORLD_UP (clampRotation cam).rotation_accumulator.y))
          (cm_fromAxisAngle CAMERA_WORLD_FORWARD (clampRotation cam).rotation_accumulator.z))) := by
  constructor
  · intro h
    rw [camera_view_matrix_fst]
    simp only [applyMovement_orientation]
    rw [applyRotation_orientation_eq]
    rw [clampRotation_mode, clampRotation_orientation, if_pos h]
  · intro h
    rw [camera_view_matrix_fst]
    simp only [applyMovement_orientation]
    rw [applyRotation_orientation_eq]
    rw [clampRotation_mode, clampRotation_orientation, if_neg (fun hc => hc h)]

/-- Concrete camera used by the witness of claim C2, roll disabled. -/
noncomputable def camC2a : Camera :=
  { camera_init with mode := CAMERA_MODE_DISABLE_ROLL, orientation := cm_init_quat 0 0 0 1 }

/-- Concrete camera used by the witness of claim C2, roll enabled. -/
noncomputable def camC2b : Camera :=
  { camera_init with orientation := cm_init_quat 0 0 0 1 }

theorem c2_orientation_composition_witness :
    (camC2a.mode &&& CAMERA_MODE_DISABLE_ROLL ≠ 0 ∧
      ((camera_view_matrix camC2a).1).orientation =
        cm_normalizeQuat (cm_mulQuat
          (cm_fromAxisAngle CAMERA_WORLD_UP (clampRotation camC2a).rotation_accumulator.y)
          (cm_mulQuat camC2a.orientation
            (cm_fromAxisAngle CAMERA_WORLD_RIGHT (clampRotation camC2a).rotation_accumulator.x)))) ∧
    (camC2b.mode &&& CAMERA_MODE_DISABLE_ROLL = 0 ∧
      ((camera_view_matrix camC2b).1).orientation =
        cm_normalizeQuat (cm_mulQuat (cm_mulQuat (cm_mulQuat camC2b.orientation
          (cm_fromAxisAngle CAMERA_WORLD_RIGHT (clampRotation camC2b).rotation_accumulator.x))
          (cm_fromAxisAngle CAMERA_WORLD_UP (clampRotation camC2b).rotation_accumulator.y))
          (cm_fromAxisAngle CAMERA_WORLD_FORWARD (clampRotation camC2b).rotation_accumulator.z))) :=
  ⟨⟨by decide, (c2_orientation_composition camC2a).1 (by decide)⟩,
   ⟨by decide, (c2_orientation_composition camC2b).2 (by decide)⟩⟩

/-- Claim C4: immediately after every camera_view_matrix call the orientation
quaternion has unit length — exactly, in the real-number model — for every
starting state (hence for any accumulated rotation inputs). -/
theorem c4_unit_norm_after_resolve (cam : Camera) :
    Real.sqrt (quatNormSq ((camera_view_matrix cam).1).orientation) = 1 ∧
    quatNormSq ((camera_view_matrix cam).1).orientation = 1 := by
  have h : quatNormSq ((camera_view_matrix cam).1).orientation = 1 := by
    rw [camera_view_matrix_fst]
    simp only [applyMovement_orientation]
    rw [applyRotation_orientation_eq]
    exact quatNormSq_normalize _
  exact ⟨by rw [h, Real.sqrt_one], h⟩

/-- Claim C6: camera_move and camera_rotate only add their argument into the
movement/rotation accumulator, so camera_forward, camera_up, camera_right and
camera_eye are unchanged by any sequence of such calls. -/
theorem c6_accumulate_defers (cam : Camera) :
    (∀ v, camera_move cam v =
      { cam with movement_accumulator := cm_add cam.movement_accumulator v }) ∧
    (∀ v, camera_rotate cam v =
      { cam with rotation_accumulator := cm_add cam.rotation_accumulator v }) ∧
    (∀ cmds : List CameraCmd,
      camera_forward (applyCmds cam cmds) = camera_forward cam ∧
      camera_up (applyCmds cam cmds) = camera_up cam ∧
      camera_right (applyCmds cam cmds) = camera_right cam ∧
      camera_eye (applyCmds cam cmds) = camera_eye cam) := by
  refine ⟨fun v => rfl, fun v => rfl, fun cmds => ?_⟩
  refine ⟨?_, ?_, ?_, ?_⟩ <;>
    simp [camera_forward, camera_up, camera_right, camera_eye,
      applyCmds_orientation, applyCmds_target_position, applyCmds_target_distance]

/-- Claim C8: after every camera_view_matrix call both accumulators are zero,
and no fields other than orientation, target_position and the accumulators
are mutated (mode, target_distance and all six clamp bounds are preserved). -/
theorem c8_resolve_resets_accumulators (cam : Camera) :
    ((camera_view_matrix cam).1).rotation_accumulator = cm_init_vec3 0 0 0 ∧
    ((camera_view_matrix cam).1).movement_accumulator = cm_init_vec3 0 0 0 ∧
    ((camera_view_matrix cam).1).mode = cam.mode ∧
    ((camera_view_matrix cam).1).target_distance = cam.target_distance ∧
    ((camera_view_matrix cam).1).minPitch = cam.minPitch ∧
    ((camera_view_matrix cam).1).maxPitch = cam.maxPitch ∧
    ((camera_view_matrix cam).1).minYaw = cam.minYaw ∧
    ((camera_view_matrix cam).1).maxYaw = cam.maxYaw ∧
    ((camera_view_matrix cam).1).minRoll = cam.minRoll ∧
    ((camera_view_matrix cam).1).maxRoll = cam.maxRoll := by
  simp [camera_view_matrix_fst]

/-- Claim C9: cm_normalizeQuat returns the identity quaternion whenever the
squared norm is ≤ 0, and otherwise scales the input by the inverse of its
norm; in the scaling branch the divisor is provably nonzero. -/
theorem c9_normalize_fallback (q : CameraQuat) :
    (quatNormSq q ≤ 0 → cm_normalizeQuat q = cm_init_quat 0 0 0 1) ∧
    (0 < quatNormSq q →
      Real.sqrt (quatNormSq q) ≠ 0 ∧
      cm_normalizeQuat q =
        cm_init_quat (q.x * (Real.sqrt (quatNormSq q))⁻¹) (q.y * (Real.sqrt (quatNormSq q))⁻¹)
          (q.z * (Real.sqrt (quatNormSq q))⁻¹) (q.w * (Real.sqrt (quatNormSq q))⁻¹)) := by
  constructor
  · intro h
    rw [cm_normalizeQuat_def, if_neg (by linarith)]
  · intro h
    refine ⟨ne_of_gt (Real.sqrt_pos.mpr h), ?_⟩
    rw [cm_normalizeQuat_def, if_pos h]
    rfl

theorem c9_normalize_fallback_witness :
    (quatNormSq (cm_init_quat 0 0 0 0) ≤ 0 ∧
      cm_normalizeQuat (cm_init_quat 0 0 0 0) = cm_init_quat 0 0 0 1) ∧
    (0 < quatNormSq (cm_init_quat 0 0 0 2) ∧
      cm_normalizeQuat (cm_init_quat 0 0 0 2) = cm_init_quat 0 0 0 1) := by
  have h0 : quatNormSq (cm_init_quat 0 0 0 0) ≤ 0 := by
    norm_num [quatNormSq, cm_init_quat]
  have h2 : 0 < quatNormSq (cm_init_quat 0 0 0 2) := by
    norm_num [quatNormSq, cm_init_quat]
  refine ⟨⟨h0, (c9_normalize_fallback _).1 h0⟩, ⟨h2, ?_⟩⟩
  have h := ((c9_normalize_fallback (cm_init_quat 0 0 0 2)).2 h2).2
  rw [h]
  have h4 : quatNormSq (cm_init_quat 0 0 0 2) = 4 := by
    norm_num [quatNormSq, cm_init_quat]
  have hs : Real.sqrt (quatNormSq (cm_init_quat 0 0 0 2)) = 2 := by
    rw [h4, show (4 : ℝ) = 2 ^ 2 by norm_num, Real.sqrt_sq (by norm_num : (0:ℝ) ≤ 2)]
  rw [hs]
  ext <;> norm_num [cm_init_quat]

/-- Claim C10: for a freshly initialized camera, after any sequence of
camera_rotate/camera_move calls, the first camera_view_matrix call leaves the
orientation at the identity quaternion: the zero-initialized orientation
annihilates every Hamilton product and the normalization fallback maps the
zero quaternion to the identity, discarding all accumulated rotations. -/
theorem c10_first_resolve_discards_rotation (cmds : List CameraCmd) :
    ((camera_view_matrix (applyCmds camera_init cmds)).1).orientation =
      cm_init_quat 0 0 0 1 := by
  rw [camera_view_matrix_fst]
  simp only [applyMovement_orientation]
  rw [applyRotation_orientation_eq]
  have ho : (clampRotation (applyCmds camera_init cmds)).orientation =
      cm_init_quat 0 0 0 0 := by
    rw [clampRotation_orientation, applyCmds_orientation]
    rfl
  rw [ho]
  have hz :
      (if (clampRotation (applyCmds camera_init cmds)).mode &&& CAMERA_MODE_DISABLE_ROLL ≠ 0 then
        cm_mulQuat (cm_fromAxisAngle CAMERA_WORLD_UP
            (clampRotation (applyCmds camera_init cmds)).rotation_accumulator.y)
          (cm_mulQuat (cm_init_quat 0 0 0 0)
            (cm_fromAxisAngle CAMERA_WORLD_RIGHT
              (clampRotation (applyCmds camera_init cmds)).rotation_accumulator.x))
      else
        cm_mulQuat (cm_mulQuat (cm_mulQuat (cm_init_quat 0 0 0 0)
          (cm_fromAxisAngle CAMERA_WORLD_RIGHT
            (clampRotation (applyCmds camera_init cmds)).rotation_accumulator.x))
          (cm_fromAxisAngle CAMERA_WORLD_UP
            (clampRotation (applyCmds camera_init cmds)).rotation_accumulator.y))
          (cm_fromAxisAngle CAMERA_WORLD_FORWARD
            (clampRotation (applyCmds camera_init cmds)).rotation_accumulator.z)) =
      cm_init_quat 0 0 0 0 := by
    split <;> simp
  rw [hz]
  rw [cm_normalizeQuat_def, if_neg (by norm_num [quatNormSq, cm_init_quat])]

/- Clamp arithmetic helpers for claim C3. -/

theorem cm_min_max_clamp (lo hi v : ℝ) (h : lo ≤ hi) :
    cm_min hi (cm_max lo v) = clampedTo v lo hi := by
  unfold cm_min cm_max clampedTo
  split_ifs with h1 h2 h2 <;> rw [max_def, min_def] <;> split_ifs <;> linarith

theorem clampedTo_of_mem (lo hi v : ℝ) (h1 : lo ≤ v) (h2 : v ≤ hi) :
    clampedTo v lo hi = v := by
  unfold clampedTo
  rw [min_eq_left h2, max_eq_right h1]

theorem clampedTo_of_hi (lo hi v : ℝ) (hlh : lo ≤ hi) (h : hi < v) :
    clampedTo v lo hi = hi := by
  unfold clampedTo
  rw [min_eq_right (le_of_lt h), max_eq_right hlh]

theorem clampedTo_of_lo (lo hi v : ℝ) (hlh : lo ≤ hi) (h : v < lo) :
    clampedTo v lo hi = lo := by
  unfold clampedTo
  rw [min_eq_left (by linarith), max_eq_left (le_of_lt h)]

theorem pitch_flag_combined (m : Nat) (h : m &&& CAMERA_MODE_CLAMP_PITCH_ANGLE ≠ 0) :
    m &&& (CAMERA_MODE_CLAMP_PITCH_ANGLE ||| CAMERA_MODE_CLAMP_YAW_ANGLE |||
      CAMERA_MODE_CLAMP_ROLL_ANGLE) ≠ 0 := by
  intro hc
  apply h
  have h28 : (CAMERA_MODE_CLAMP_PITCH_ANGLE ||| CAMERA_MODE_CLAMP_YAW_ANGLE |||
      CAMERA_MODE_CLAMP_ROLL_ANGLE) &&& CAMERA_MODE_CLAMP_PITCH_ANGLE =
      CAMERA_MODE_CLAMP_PITCH_ANGLE := by decide
  calc m &&& CAMERA_MODE_CLAMP_PITCH_ANGLE
      = m &&& ((CAMERA_MODE_CLAMP_PITCH_ANGLE ||| CAMERA_MODE_CLAMP_YAW_ANGLE |||
          CAMERA_MODE_CLAMP_ROLL_ANGLE) &&& CAMERA_MODE_CLAMP_PITCH_ANGLE) := by rw [h28]
    _ = (m &&& (CAMERA_MODE_CLAMP_PITCH_ANGLE ||| CAMERA_MODE_CLAMP_YAW_ANGLE |||
          CAMERA_MODE_CLAMP_ROLL_ANGLE)) &&& CAMERA_MODE_CLAMP_PITCH_ANGLE :=
        (Nat.and_assoc m _ _).symm
    _ = 0 &&& CAMERA_MODE_CLAMP_PITCH_ANGLE := by rw [hc]
    _ = 0 := Nat.zero_and _

theorem yaw_flag_combined (m : Nat) (h : m &&& CAMERA_MODE_CLAMP_YAW_ANGLE ≠ 0) :
    m &&& (CAMERA_MODE_CLAMP_PITCH_ANGLE ||| CAMERA_MODE_CLAMP_YAW_ANGLE |||
      CAMERA_MODE_CLAMP_ROLL_ANGLE) ≠ 0 := by
  intro hc
  apply h
  have h28 : (CAMERA_MODE_CLAMP_PITCH_ANGLE ||| CAMERA_MODE_CLAMP_YAW_ANGLE |||
      CAMERA_MODE_CLAMP_ROLL_ANGLE) &&& CAMERA_MODE_CLAMP_YAW_ANGLE =
      CAMERA_MODE_CLAMP_YAW_ANGLE := by decide
  calc m &&& CAMERA_MODE_CLAMP_YAW_ANGLE
      = m &&& ((CAMERA_MODE_CLAMP_PITCH_ANGLE ||| CAMERA_MODE_CLAMP_YAW_ANGLE |||
          CAMERA_MODE_CLAMP_ROLL_ANGLE) &&& CAMERA_MODE_CLAMP_YAW_ANGLE) := by rw [h28]
    _ = (m &&& (CAMERA_MODE_CLAMP_PITCH_ANGLE ||| CAMERA_MODE_CLAMP_YAW_ANGLE |||
          CAMERA_MODE_CLAMP_ROLL_ANGLE)) &&& CAMERA_MODE_CLAMP_YAW_ANGLE :=
        (Nat.and_assoc m _ _).symm
    _ = 0 &&& CAMERA_MODE_CLAMP_YAW_ANGLE := by rw [hc]
    _ = 0 := Nat.zero_and _

theorem roll_flag_combined (m : Nat) (h : m &&& CAMERA_MODE_CLAMP_ROLL_ANGLE ≠ 0) :
    m &&& (CAMERA_MODE_CLAMP_PITCH_ANGLE ||| CAMERA_MODE_CLAMP_YAW_ANGLE |||
      CAMERA_MODE_CLAMP_ROLL_ANGLE) ≠ 0 := by
  intro hc
  apply h
  have h28 : (CAMERA_MODE_CLAMP_PITCH_ANGLE ||| CAMERA_MODE_CLAMP_YAW_ANGLE |||
      CAMERA_MODE_CLAMP_ROLL_ANGLE) &&& CAMERA_MODE_CLAMP_ROLL_ANGLE =
      CAMERA_MODE_CLAMP_ROLL_ANGLE := by decide
  calc m &&& CAMERA_MODE_CLAMP_ROLL_ANGLE
      = m &&& ((CAMERA_MODE_CLAMP_PITCH_ANGLE ||| CAMERA_MODE_CLAMP_YAW_ANGLE |||
          CAMERA_MODE_CLAMP_ROLL_ANGLE) &&& CAMERA_MODE_CLAMP_ROLL_ANGLE) := by rw [h28]
    _ = (m &&& (CAMERA_MODE_CLAMP_PITCH_ANGLE ||| CAMERA_MODE_CLAMP_YAW_ANGLE |||
          CAMERA_MODE_CLAMP_ROLL_ANGLE)) &&& CAMERA_MODE_CLAMP_ROLL_ANGLE :=
        (Nat.and_assoc m _ _).symm
    _ = 0 &&& CAMERA_MODE_CLAMP_ROLL_ANGLE := by rw [hc]
    _ = 0 := Nat.zero_and _

theorem clampRotation_pitch_eq (cam : Camera)
    (h : cam.mode &&& CAMERA_MODE_CLAMP_PITCH_ANGLE ≠ 0) :
    (clampRotation cam).rotation_accumulator.x =
      cm_min (cam.maxPitch - (cm_toEuler cam.orientation).x)
        (cm_max (cam.minPitch - (cm_toEuler cam.orientation).x)
          cam.rotation_accumulator.x) := by
  unfold clampRotation
  rw [if_pos (pitch_flag_combined cam.mode h)]
  show (if cam.mode &&& CAMERA_MODE_CLAMP_PITCH_ANGLE ≠ 0 then _ else _) = _
  rw [if_pos h]

theorem clampRotation_yaw_eq (cam : Camera)
    (h : cam.mode &&& CAMERA_MODE_CLAMP_YAW_ANGLE ≠ 0) :
    (clampRotation cam).rotation_accumulator.y =
      cm_min (cam.maxYaw - (cm_toEuler cam.orientation).y)
        (cm_max (cam.minYaw - (cm_toEuler cam.orientation).y)
          cam.rotation_accumulator.y) := by
  unfold clampRotation
  rw [if_pos (yaw_flag_combined cam.mode h)]
  show (if cam.mode &&& CAMERA_MODE_CLAMP_YAW_ANGLE ≠ 0 then _ else _) = _
  rw [if_pos h]

theorem clampRotation_roll_eq (cam : Camera)
    (h : cam.mode &&& CAMERA_MODE_CLAMP_ROLL_ANGLE ≠ 0) :
    (clampRotation cam).rotation_accumulator.z =
      cm_min (cam.maxRoll - (cm_toEuler cam.orientation).z)
        (cm_max (cam.minRoll - (cm_toEuler cam.orientation).z)
          cam.rotation_accumulator.z) := by
  unfold clampRotation
  rw [if_pos (roll_flag_combined cam.mode h)]
  show (if cam.mode &&& CAMERA_MODE_CLAMP_ROLL_ANGLE ≠ 0 then _ else _) = _
  rw [if_pos h]

/-- Claim C3: for each axis whose clamp flag is active, with min ≤ max for
that axis, the pending rotation delta is replaced by
clamp(delta, minBound - currentAngle, maxBound - currentAngle) where
currentAngle is the Euler decomposition of the pre-update orientation; a
delta already inside that interval passes through unchanged, and an
overshooting delta is truncated to land exactly on the bound. -/
theorem c3_clamp_effect (cam : Camera) :
    (cam.mode &&& CAMERA_MODE_CLAMP_PITCH_ANGLE ≠ 0 → cam.minPitch ≤ cam.maxPitch →
      ((clampRotation cam).rotation_accumulator.x =
        clampedTo cam.rotation_accumulator.x
          (cam.minPitch - (cm_toEuler cam.orientation).x)
          (cam.maxPitch - (cm_toEuler cam.orientation).x) ∧
       (cam.minPitch - (cm_toEuler cam.orientation).x ≤ cam.rotation_accumulator.x →
        cam.rotation_accumulator.x ≤ cam.maxPitch - (cm_toEuler cam.orientation).x →
        (clampRotation cam).rotation_accumulator.x = cam.rotation_accumulator.x) ∧
       (cam.maxPitch - (cm_toEuler cam.orientation).x < cam.rotation_accumulator.x →
        (clampRotation cam).rotation_accumulator.x =
          cam.maxPitch - (cm_toEuler cam.orientation).x) ∧
       (cam.rotation_accumulator.x < cam.minPitch - (cm_toEuler cam.orientation).x →
        (clampRotation cam).rotation_accumulator.x =
          cam.minPitch - (cm_toEuler cam.orientation).x))) ∧
    (cam.mode &&& CAMERA_MODE_CLAMP_YAW_ANGLE ≠ 0 → cam.minYaw ≤ cam.maxYaw →
      ((clampRotation cam).rotation_accumulator.y =
        clampedTo cam.rotation_accumulator.y
          (cam.minYaw - (cm_toEuler cam.orientation).y)
          (cam.maxYaw - (cm_toEuler cam.orientation).y) ∧
       (cam.minYaw - (cm_toEuler cam.orientation).y ≤ cam.rotation_accumulator.y →
        cam.rotation_accumulator.y ≤ cam.maxYaw - (cm_toEuler cam.orientation).y →
        (clampRotation cam).rotation_accumulator.y = cam.rotation_accumulator.y) ∧
       (cam.maxYaw - (cm_toEuler cam.orientation).y < cam.rotation_accumulator.y →
        (clampRotation cam).rotation_accumulator.y =
          cam.maxYaw - (cm_toEuler cam.orientation).y) ∧
       (cam.rotation_accumulator.y < cam.minYaw - (cm_toEuler cam.orientation).y →
        (clampRotation cam).rotation_accumulator.y =
          cam.minYaw - (cm_toEuler cam.orientation).y))) ∧
    (cam.mode &&& CAMERA_MODE_CLAMP_ROLL_ANGLE ≠ 0 → cam.minRoll ≤ cam.maxRoll →
      ((clampRotation cam).rotation_accumulator.z =
        clampedTo cam.rotation_accumulator.z
          (cam.minRoll - (cm_toEuler cam.orientation).z)
          (cam.maxRoll - (cm_toEuler cam.orientation).z) ∧
       (cam.minRoll - (cm_toEuler cam.orientation).z ≤ cam.rotation_accumulator.z →
        cam.rotation_accumulator.z ≤ cam.maxRoll - (cm_toEuler cam.orientation).z →
        (clampRotation cam).rotation_accumulator.z = cam.rotation_accumulator.z) ∧
       (cam.maxRoll - (cm_toEuler cam.orientation).z < cam.rotation_accumulator.z →
        (clampRotation cam).rotation_accumulator.z =
          cam.maxRoll - (cm_toEuler cam.orientation).z) ∧
       (cam.rotation_accumulator.z < cam.minRoll - (cm_toEuler cam.orientation).z →
        (clampRotation cam).rotation_accumulator.z =
          cam.minRoll - (cm_toEuler cam.orientation).z))) := by
  refine ⟨fun hf hb => ?_, fun hf hb => ?_, fun hf hb => ?_⟩
  · have hlh : cam.minPitch - (cm_toEuler cam.orientation).x ≤
        cam.maxPitch - (cm_toEuler cam.orientation).x := by linarith
    rw [clampRotation_pitch_eq cam hf, cm_min_max_clamp _ _ _ hlh]
    exact ⟨rfl, fun h1 h2 => clampedTo_of_mem _ _ _ h1 h2,
      fun h => clampedTo_of_hi _ _ _ hlh h, fun h => clampedTo_of_lo _ _ _ hlh h⟩
  · have hlh : cam.minYaw - (cm_toEuler cam.orientation).y ≤
        cam.maxYaw - (cm_toEuler cam.orientation).y := by linarith
    rw [clampRotation_yaw_eq cam hf, cm_min_max_clamp _ _ _ hlh]
    exact ⟨rfl, fun h1 h2 => clampedTo_of_mem _ _ _ h1 h2,
      fun h => clampedTo_of_hi _ _ _ hlh h, fun h => clampedTo_of_lo _ _ _ hlh h⟩
  · have hlh : cam.minRoll - (cm_toEuler cam.orientation).z ≤
        cam.maxRoll - (cm_toEuler cam.orientation).z := by linarith
    rw [clampRotation_roll_eq cam hf, cm_min_max_clamp _ _ _ hlh]
    exact ⟨rfl, fun h1 h2 => clampedTo_of_mem _ _ _ h1 h2,
      fun h => clampedTo_of_hi _ _ _ hlh h, fun h => clampedTo_of_lo _ _ _ hlh h⟩

/-- Concrete camera used by the witness of claim C3: identity orientation,
all three clamp flags active with bounds [-1, 1], pending rotation
(5, 0, -3). -/
noncomputable def camC3 : Camera :=
  { camera_init with
    mode := CAMERA_MODE_CLAMP_PITCH_ANGLE ||| CAMERA_MODE_CLAMP_YAW_ANGLE |||
      CAMERA_MODE_CLAMP_ROLL_ANGLE
    orientation := cm_init_quat 0 0 0 1
    rotation_accumulator := cm_init_vec3 5 0 (-3)
    minPitch := -1
    maxPitch := 1
    minYaw := -1
    maxYaw := 1
    minRoll := -1
    maxRoll := 1 }

theorem c3_clamp_effect_witness :
    (camC3.mode &&& CAMERA_MODE_CLAMP_PITCH_ANGLE ≠ 0 ∧ camC3.minPitch ≤ camC3.maxPitch ∧
      (clampRotation camC3).rotation_accumulator.x = 1) ∧
    (camC3.mode &&& CAMERA_MODE_CLAMP_YAW_ANGLE ≠ 0 ∧ camC3.minYaw ≤ camC3.maxYaw ∧
      (clampRotation camC3).rotation_accumulator.y = 0) ∧
    (camC3.mode &&& CAMERA_MODE_CLAMP_ROLL_ANGLE ≠ 0 ∧ camC3.minRoll ≤ camC3.maxRoll ∧
      (clampRotation camC3).rotation_accumulator.z = -1) := by
  have heuler : cm_toEuler camC3.orientation = cm_init_vec3 0 0 0 := by
    show cm_toEuler (cm_init_quat 0 0 0 1) = cm_init_vec3 0 0 0
    unfold cm_toEuler atan2f cm_init_quat cm_init_vec3
    norm_num [Real.arctan_zero]
  have hbp : camC3.minPitch ≤ camC3.maxPitch := by norm_num [camC3]
  have hby : camC3.minYaw ≤ camC3.maxYaw := by norm_num [camC3]
  have hbr : camC3.minRoll ≤ camC3.maxRoll := by norm_num [camC3]
  have hx := ((c3_clamp_effect camC3).1 (by decide) hbp).1
  have hy := ((c3_clamp_effect camC3).2.1 (by decide) hby).1
  have hz := ((c3_clamp_effect camC3).2.2 (by decide) hbr).1
  rw [heuler] at hx hy hz
  refine ⟨⟨by decide, hbp, ?_⟩, ⟨by decide, hby, ?_⟩, ⟨by decide, hbr, ?_⟩⟩
  · rw [hx]
    show clampedTo 5 ((-1 : ℝ) - (cm_init_vec3 0 0 0).x) (1 - (cm_init_vec3 0 0 0).x) = 1
    norm_num [clampedTo, cm_init_vec3]
  · rw [hy]
    show clampedTo 0 ((-1 : ℝ) - (cm_init_vec3 0 0 0).y) (1 - (cm_init_vec3 0 0 0).y) = 0
    norm_num [clampedTo, cm_init_vec3]
  · rw [hz]
    show clampedTo (-3) ((-1 : ℝ) - (cm_init_vec3 0 0 0).z) (1 - (cm_init_vec3 0 0 0).z) = -1
    norm_num [clampedTo, cm_init_vec3]

theorem camera_view_matrix_mode (cam : Camera) :
    ((camera_view_matrix cam).1).mode = cam.mode := by
  rw [camera_view_matrix_fst]; simp

theorem view_orientation_noroll_noclamp (c : Camera)
    (h0 : c.mode &&& (CAMERA_MODE_CLAMP_PITCH_ANGLE ||| CAMERA_MODE_CLAMP_YAW_ANGLE |||
      CAMERA_MODE_CLAMP_ROLL_ANGLE) = 0)
    (h1 : c.mode &&& CAMERA_MODE_DISABLE_ROLL ≠ 0) :
    ((camera_view_matrix c).1).orientation =
      cm_normalizeQuat (cm_mulQuat
        (cm_fromAxisAngle CAMERA_WORLD_UP c.rotation_accumulator.y)
        (cm_mulQuat c.orientation
          (cm_fromAxisAngle CAMERA_WORLD_RIGHT c.rotation_accumulator.x))) := by
  rw [camera_view_matrix_fst]
  simp only [applyMovement_orientation]
  have hcr : clampRotation c = c := by
    unfold clampRotation; rw [if_neg (fun hc => hc h0)]
  rw [hcr, applyRotation_orientation_eq, if_pos h1]

/-- Claim C5: with DISABLE_ROLL set and no clamp flags active, starting from
any unit orientation, resolving a pure-yaw delta θ and then a pure-pitch
delta φ in two separate camera_view_matrix calls yields the same final
orientation as one camera_view_matrix call with rotation accumulator
(φ, θ, 0). -/
theorem c5_noroll_two_step (cam : Camera) (θ φ : ℝ)
    (hroll : cam.mode &&& CAMERA_MODE_DISABLE_ROLL ≠ 0)
    (hclamp : cam.mode &&& (CAMERA_MODE_CLAMP_PITCH_ANGLE ||| CAMERA_MODE_CLAMP_YAW_ANGLE |||
      CAMERA_MODE_CLAMP_ROLL_ANGLE) = 0)
    (hunit : quatNormSq cam.orientation = 1) :
    ((camera_view_matrix { (camera_view_matrix { cam with
        rotation_accumulator := cm_init_vec3 0 θ 0 }).1 with
        rotation_accumulator := cm_init_vec3 φ 0 0 }).1).orientation =
    ((camera_view_matrix { cam with
        rotation_accumulator := cm_init_vec3 φ θ 0 }).1).orientation := by
  have hA0 : ((camera_view_matrix { cam with
      rotation_accumulator := cm_init_vec3 0 θ 0 }).1).orientation =
      cm_normalizeQuat (cm_mulQuat (cm_fromAxisAngle CAMERA_WORLD_UP θ)
        (cm_mulQuat cam.orientation (cm_fromAxisAngle CAMERA_WORLD_RIGHT 0))) :=
    view_orientation_noroll_noclamp _ hclamp hroll
  have hA : ((camera_view_matrix { cam with
      rotation_accumulator := cm_init_vec3 0 θ 0 }).1).orientation =
      cm_mulQuat (cm_fromAxisAngle CAMERA_WORLD_UP θ) cam.orientation := by
    rw [hA0, cm_fromAxisAngle_zero, cm_mulQuat_one]
    exact cm_normalizeQuat_of_normSq_one _ (by
      rw [quatNormSq_mulQuat, quatNormSq_fromAxisAngle_up, hunit, one_mul])
  have hB0 : ((camera_view_matrix { (camera_view_matrix { cam with
      rotation_accumulator := cm_init_vec3 0 θ 0 }).1 with
      rotation_accumulator := cm_init_vec3 φ 0 0 }).1).orientation =
      cm_normalizeQuat (cm_mulQuat (cm_fromAxisAngle CAMERA_WORLD_UP 0)
        (cm_mulQuat ((camera_view_matrix { cam with
          rotation_accumulator := cm_init_vec3 0 θ 0 }).1).orientation
          (cm_fromAxisAngle CAMERA_WORLD_RIGHT φ))) :=
    view_orientation_noroll_noclamp _
      (by
        show ((camera_view_matrix { cam with
          rotation_accumulator := cm_init_vec3 0 θ 0 }).1).mode &&&
          (CAMERA_MODE_CLAMP_PITCH_ANGLE ||| CAMERA_MODE_CLAMP_YAW_ANGLE |||
            CAMERA_MODE_CLAMP_ROLL_ANGLE) = 0
        rw [camera_view_matrix_mode]
        exact hclamp)
      (by
        show ((camera_view_matrix { cam with
          rotation_accumulator := cm_init_vec3 0 θ 0 }).1).mode &&&
          CAMERA_MODE_DISABLE_ROLL ≠ 0
        rw [camera_view_matrix_mode]
        exact hroll)
  have hB : ((camera_view_matrix { (camera_view_matrix { cam with
      rotation_accumulator := cm_init_vec3 0 θ 0 }).1 with
      rotation_accumulator := cm_init_vec3 φ 0 0 }).1).orientation =
      cm_normalizeQuat (cm_mulQuat (cm_fromAxisAngle CAMERA_WORLD_UP θ)
        (cm_mulQuat cam.orientation (cm_fromAxisAngle CAMERA_WORLD_RIGHT φ))) := by
    rw [hB0, hA, cm_fromAxisAngle_zero, cm_one_mulQuat, cm_mulQuat_assoc]
  have hC : ((camera_view_matrix { cam with
      rotation_accumulator := cm_init_vec3 φ θ 0 }).1).orientation =
      cm_normalizeQuat (cm_mulQuat (cm_fromAxisAngle CAMERA_WORLD_UP θ)
        (cm_mulQuat cam.orientation (cm_fromAxisAngle CAMERA_WORLD_RIGHT φ))) :=
    view_orientation_noroll_noclamp _ hclamp hroll
  rw [hB, hC]

/-- Concrete camera used by the witness of claim C5. -/
noncomputable def camC5 : Camera :=
  { camera_init with mode := CAMERA_MODE_DISABLE_ROLL, orientation := cm_init_quat 0 0 0 1 }

theorem c5_noroll_two_step_witness :
    (camC5.mode &&& CAMERA_MODE_DISABLE_ROLL ≠ 0) ∧
    (camC5.mode &&& (CAMERA_MODE_CLAMP_PITCH_ANGLE ||| CAMERA_MODE_CLAMP_YAW_ANGLE |||
      CAMERA_MODE_CLAMP_ROLL_ANGLE) = 0) ∧
    (quatNormSq camC5.orientation = 1) ∧
    (((camera_view_matrix { (camera_view_matrix { camC5 with
        rotation_accumulator := cm_init_vec3 0 0 0 }).1 with
        rotation_accumulator := cm_init_vec3 0 0 0 }).1).orientation =
     ((camera_view_matrix { camC5 with
        rotation_accumulator := cm_init_vec3 0 0 0 }).1).orientation) :=
  ⟨by decide, by decide,
   by norm_num [camC5, camera_init, quatNormSq, cm_init_quat],
   c5_noroll_two_step camC5 0 0 (by decide) (by decide)
     (by norm_num [camC5, camera_init, quatNormSq, cm_init_quat])⟩

@[simp] theorem cm_init_vec3_x (a b c : ℝ) : (cm_init_vec3 a b c).x = a := rfl

@[simp] theorem cm_init_vec3_y (a b c : ℝ) : (cm_init_vec3 a b c).y = b := rfl

@[simp] theorem cm_init_vec3_z (a b c : ℝ) : (cm_init_vec3 a b c).z = c := rfl

/-- Concrete camera for claim C7: MOVE_IN_WORLDPLANE set, orientation the
unit quaternion (119/169, 0, 0, 120/169), whose forward vector lies within
the code's epsilon of straight down. -/
noncomputable def camC7 : Camera :=
  { camera_init with
    mode := CAMERA_MODE_MOVE_IN_WORLDPLANE
    orientation := cm_init_quat (119/169) 0 0 (120/169) }

theorem camC7_forward :
    cm_mul CAMERA_WORLD_FORWARD (cm_invert (cm_init_quat (119/169) 0 0 (120/169))) =
      cm_init_vec3 0 (-(28560/28561)) (239/28561) := by
  simp only [cm_mul, cm_invert, cm_mulQuat, cm_init_quat, cm_init_vec3, CAMERA_WORLD_FORWARD]
  ext <;> norm_num

theorem camC7_up :
    cm_mul CAMERA_WORLD_UP (cm_invert (cm_init_quat (119/169) 0 0 (120/169))) =
      cm_init_vec3 0 (239/28561) (28560/28561) := by
  simp only [cm_mul, cm_invert, cm_mulQuat, cm_init_quat, cm_init_vec3, CAMERA_WORLD_UP]
  ext <;> norm_num

theorem camC7_right :
    cm_mul CAMERA_WORLD_RIGHT (cm_invert (cm_init_quat (119/169) 0 0 (120/169))) =
      cm_init_vec3 1 0 0 := by
  simp only [cm_mul, cm_invert, cm_mulQuat, cm_init_quat, cm_init_vec3, CAMERA_WORLD_RIGHT]
  ext <;> norm_num

theorem camC7_normalize_forward :
    cm_normalizeVec3 (cm_init_vec3 0 0 (28560/28561)) = cm_init_vec3 0 0 1 := by
  simp only [cm_normalizeVec3, cm_init_vec3, cm_scale]
  rw [show (0:ℝ) * 0 + 0 * 0 + 28560 / 28561 * (28560 / 28561) = (28560/28561)^2 by ring]
  rw [Real.sqrt_sq (by norm_num : (0:ℝ) ≤ 28560/28561)]
  ext <;> norm_num

theorem camC7_normalize_right :
    cm_normalizeVec3 (cm_init_vec3 1 0 0) = cm_init_vec3 1 0 0 := by
  simp only [cm_normalizeVec3, cm_init_vec3, cm_scale]
  rw [show (1:ℝ) * 1 + 0 * 0 + 0 * 0 = 1 by ring, Real.sqrt_one]
  ext <;> norm_num

theorem camC7_clamp_id :
    clampRotation (camera_move camC7 (cm_init_vec3 1 0 0)) =
      camera_move camC7 (cm_init_vec3 1 0 0) := by
  unfold clampRotation
  rw [if_neg (fun h => h (by decide :
    (camera_move camC7 (cm_init_vec3 1 0 0)).mode &&&
      (CAMERA_MODE_CLAMP_PITCH_ANGLE ||| CAMERA_MODE_CLAMP_YAW_ANGLE |||
        CAMERA_MODE_CLAMP_ROLL_ANGLE) = 0))]

theorem camC7_orientation_after :
    (applyRotation (camera_move camC7 (cm_init_vec3 1 0 0))).orientation =
      cm_init_quat (119/169) 0 0 (120/169) := by
  rw [applyRotation_orientation_eq]
  rw [if_neg (fun h => h (by decide :
    (camera_move camC7 (cm_init_vec3 1 0 0)).mode &&& CAMERA_MODE_DISABLE_ROLL = 0))]
  show cm_normalizeQuat (cm_mulQuat (cm_mulQuat (cm_mulQuat
    (cm_init_quat (119/169) 0 0 (120/169)) (cm_fromAxisAngle CAMERA_WORLD_RIGHT 0))
    (cm_fromAxisAngle CAMERA_WORLD_UP 0)) (cm_fromAxisAngle CAMERA_WORLD_FORWARD 0)) =
    cm_init_quat (119/169) 0 0 (120/169)
  simp only [cm_fromAxisAngle_zero, cm_mulQuat_one]
  exact cm_normalizeQuat_of_normSq_one _ (by norm_num [quatNormSq, cm_init_quat])

theorem camC7_position_after :
    ((camera_view_matrix (camera_move camC7 (cm_init_vec3 1 0 0))).1).target_position =
      cm_init_vec3 0 0 1 := by
  rw [camera_view_matrix_fst, camC7_clamp_id]
  have hfwd : camera_forward (applyRotation (camera_move camC7 (cm_init_vec3 1 0 0))) =
      cm_init_vec3 0 (-(28560/28561)) (239/28561) := by
    unfold camera_forward
    rw [camC7_orientation_after]
    exact camC7_forward
  have hup : camera_up (applyRotation (camera_move camC7 (cm_init_vec3 1 0 0))) =
      cm_init_vec3 0 (239/28561) (28560/28561) := by
    unfold camera_up
    rw [camC7_orientation_after]
    exact camC7_up
  have hright : camera_right (applyRotation (camera_move camC7 (cm_init_vec3 1 0 0))) =
      cm_init_vec3 1 0 0 := by
    unfold camera_right
    rw [camC7_orientation_after]
    exact camC7_right
  have hcond : (applyRotation (camera_move camC7 (cm_init_vec3 1 0 0))).mode &&&
      CAMERA_MODE_MOVE_IN_WORLDPLANE ≠ 0 := by decide
  simp only [applyMovement]
  rw [hfwd, hup, hright]
  rw [if_pos hcond]
  rw [if_neg (by norm_num), if_pos (by norm_num)]
  simp only [cm_init_vec3_x, cm_init_vec3_y, cm_init_vec3_z]
  rw [camC7_normalize_forward, camC7_normalize_right]
  rw [applyRotation_movement_accumulator]
  ext <;>
    simp [camera_move, camC7, camera_init, cm_add, cm_scale, cm_init_vec3, CAMERA_WORLD_UP]

/-- Claim C7: with MOVE_IN_WORLDPLANE set and the camera looking straight
down (forward within the code's epsilon of (0,-1,0)), camera_move with a
pure forward offset (1,0,0) followed by camera_view_matrix moves
target_position horizontally: the Y component is unchanged while the (X,Z)
components change. -/
theorem c7_worldplane_straight_down :
    (camera_forward camC7).y < -1 + 0.0001 ∧
    camera_forward camC7 = cm_init_vec3 0 (-(28560/28561)) (239/28561) ∧
    ((camera_view_matrix (camera_move camC7 (cm_init_vec3 1 0 0))).1).target_position.y =
      camC7.target_position.y ∧
    (((camera_view_matrix (camera_move camC7 (cm_init_vec3 1 0 0))).1).target_position.x,
      ((camera_view_matrix (camera_move camC7 (cm_init_vec3 1 0 0))).1).target_position.z) ≠
      (camC7.target_position.x, camC7.target_position.z) := by
  have hfwd0 : camera_forward camC7 = cm_init_vec3 0 (-(28560/28561)) (239/28561) :=
    camC7_forward
  refine ⟨by rw [hfwd0]; norm_num, hfwd0, ?_, ?_⟩
  · rw [camC7_position_after]
    show (0 : ℝ) = camC7.target_position.y
    norm_num [camC7, camera_init, cm_init_vec3]
  · rw [camC7_position_after]
    show ((0 : ℝ), (1 : ℝ)) ≠ (camC7.target_position.x, camC7.target_position.z)
    simp only [camC7, camera_init, cm_init_vec3]
    intro h1
    have h2 := congrArg Prod.snd h1
    norm_num at h2
